import Mathlib

/-!
Verification development for the lingo front-end substrate
(src/lingo/error.cpp and src/lingo/token.hpp): a shallow embedding of
the diagnostic-context stack and of the token model, with theorems
settling the specified properties.
-/

namespace Lingo

/-! ## Locations

Source locations are external collaborators; the core only stores and
prints them.  We model a location by its opaque printable value; a
default-constructed (null/empty) location is the empty string. -/

abbrev Location := String

/-! ## Diagnostics (src/lingo/error.cpp) -/

/-- The kinds of diagnostics, as in `Diagnostic_kind` of error.hpp
(used by error.cpp). -/
inductive Diagnostic_kind where
  | error_diag
  | warning_diag
  | note_diag
deriving DecidableEq, Repr

/-- `operator<<(std::ostream&, Diagnostic_kind)` from error.cpp lines 13-24. -/
def Diagnostic_kind.str : Diagnostic_kind → String
  | .error_diag => "error"
  | .warning_diag => "warning"
  | .note_diag => "note"

/-- A diagnostic value: kind, location and message. -/
structure Diagnostic where
  kind : Diagnostic_kind
  loc : Location
  msg : String
deriving DecidableEq, Repr

/-- `operator<<(std::ostream&, Diagnostic const&)` from error.cpp lines
27-31: writes `kind:location: message`. -/
def formatDiag (d : Diagnostic) : String :=
  d.kind.str ++ ":" ++ d.loc ++ ": " ++ d.msg

/-- The state of one `Diagnostic_context`: the suppression flag
`suppress_`, the error counter `errs_`, and the stored sequence of
diagnostics (in the C++ class, the `std::vector<Diagnostic>` base that
`push_back`, `clear` and range-for act on). -/
structure Diagnostic_context where
  suppress_ : Bool
  errs_ : Nat
  saved_ : List Diagnostic
deriving DecidableEq, Repr

/-- The member initializers of `Diagnostic_context::Diagnostic_context(bool)`
(error.cpp lines 43-47): `suppress_(suppress), errs_(0)` with an empty
vector base.  (The push onto the global stack is modelled separately by
the stack operations below.) -/
def Diagnostic_context.mkNew (suppress : Bool) : Diagnostic_context :=
  { suppress_ := suppress, errs_ := 0, saved_ := [] }

/-- `Diagnostic_context::errors()`, read by the facade `error_count()`
(error.cpp lines 117-121). -/
def Diagnostic_context.errors (c : Diagnostic_context) : Nat :=
  c.errs_

/-- `Diagnostic_context::emit(Diagnostic const&)` (error.cpp lines 58-67):
increment `errs_` when the kind is `error_diag`; if suppressing, append the
diagnostic to the stored sequence and write nothing; otherwise write the
formatted diagnostic to the reporting boundary (`std::cerr`) and do not
retain it.  The second component is the list of lines written. -/
def Diagnostic_context.emit (c : Diagnostic_context) (d : Diagnostic) :
    Diagnostic_context × List String :=
  let e := if d.kind = .error_diag then c.errs_ + 1 else c.errs_
  if c.suppress_ then
    ({ c with errs_ := e, saved_ := c.saved_ ++ [d] }, [])
  else
    ({ c with errs_ := e }, [formatDiag d])

/-- `Diagnostic_context::reset()` (error.cpp lines 71-76): `clear()` the
stored sequence and zero `errs_`. -/
def Diagnostic_context.reset (c : Diagnostic_context) : Diagnostic_context :=
  { c with errs_ := 0, saved_ := [] }

/-- The no-argument replay form `Diagnostic_context::emit()` (error.cpp
lines 81-87): if suppressing, write every stored diagnostic to the
reporting boundary in order; otherwise do nothing.  No member is
modified, so the context is returned unchanged alongside the output. -/
def Diagnostic_context.emitStored (c : Diagnostic_context) :
    Diagnostic_context × List String :=
  (c, if c.suppress_ then c.saved_.map formatDiag else [])

/-- Emit a whole sequence of diagnostics into a context, collecting the
lines written to the reporting boundary. -/
def emitAll (c : Diagnostic_context) : List Diagnostic → Diagnostic_context × List String
  | [] => (c, [])
  | d :: ds =>
    let step := c.emit d
    let rest := emitAll step.1 ds
    (rest.1, step.2 ++ rest.2)

/-- The number of error-kind diagnostics in a sequence. -/
def countErrors (ds : List Diagnostic) : Nat :=
  (ds.filter (fun d => d.kind = .error_diag)).length

/-- The facade `error(Bound_location, String const&)` (error.cpp lines
126-130), applied to the top context: emits an error-kind diagnostic. -/
def error (loc : Location) (msg : String) (c : Diagnostic_context) :
    Diagnostic_context × List String :=
  c.emit { kind := .error_diag, loc := loc, msg := msg }

/-- The facade `warning(Bound_location, String const&)` (error.cpp lines
139-143), applied to the top context: emits a warning-kind diagnostic. -/
def warning (loc : Location) (msg : String) (c : Diagnostic_context) :
    Diagnostic_context × List String :=
  c.emit { kind := .warning_diag, loc := loc, msg := msg }

/-! ## The global diagnostic-context stack (error.cpp lines 34-53)

`std::stack<Diagnostic_context*> diags_` holds pointers to the live
contexts; the constructor pushes `this` and the destructor pops the top.
We model the stack as a list of context identities (head = top) and
lifetime events as operations on it. -/

/-- A lifetime event of a `Diagnostic_context`: construction (which
pushes the new context's identity, error.cpp line 46) or destruction
(which pops the top of the stack, error.cpp line 52). -/
inductive Ctx_op where
  | push (id : Nat)
  | pop
deriving DecidableEq, Repr

/-- Run a sequence of construction/destruction events against the global
stack.  Popping an empty stack is the C++ undefined behaviour, modelled
as failure (`none`). -/
def runOps (s : List Nat) : List Ctx_op → Option (List Nat)
  | [] => some s
  | .push i :: rest => runOps (i :: s) rest
  | .pop :: rest =>
    match s with
    | [] => none
    | _ :: s1 => runOps s1 rest

/-- Event sequences that follow nested-scope discipline: every
destruction is the matching destruction of the most recent live
construction — i.e. the sequence is a well-bracketed word of pushes and
pops. -/
inductive Nested : List Ctx_op → Prop where
  | nil : Nested []
  | seq {a b : List Ctx_op} : Nested a → Nested b → Nested (a ++ b)
  | scope (i : Nat) {a : List Ctx_op} : Nested a →
      Nested (Ctx_op.push i :: a ++ [Ctx_op.pop])

/-- The global state touched by `init_diagnostics()` (error.cpp lines
90-95): the context stack together with the initialized-flag of the
function-local `static Diagnostic_context root_`. -/
structure DiagGlobal where
  stack : List Nat
  rootInit : Bool
deriving DecidableEq, Repr

/-- The identity of the root context `root_`. -/
def rootId : Nat := 0

/-- `init_diagnostics()` (error.cpp lines 90-95): the function-local
`static Diagnostic_context root_` is constructed (pushing the root
context) on the first call only; later calls do nothing. -/
def init_diagnostics (g : DiagGlobal) : DiagGlobal :=
  if g.rootInit then g
  else { stack := rootId :: g.stack, rootInit := true }

/-! ## Token kinds (src/lingo/token.hpp lines 30-90)

`using Token_kind = int`; machine-int overflow plays no role in the
operations below, so `Int` embeds it faithfully. -/

abbrev Token_kind := Int

def error_tok : Token_kind := 0

def lparen_tok : Token_kind := 1
def rparen_tok : Token_kind := 2
def lbrace_tok : Token_kind := 3
def rbrace_tok : Token_kind := 4
def lbrack_tok : Token_kind := 5
def rbrack_tok : Token_kind := 6
def dot_tok : Token_kind := 7
def comma_tok : Token_kind := 8
def semicolon_tok : Token_kind := 9
def colon_tok : Token_kind := 10
def equal_tok : Token_kind := 11
def plus_tok : Token_kind := 12
def minus_tok : Token_kind := 13
def star_tok : Token_kind := 14
def slash_tok : Token_kind := 15
def percent_tok : Token_kind := 16
def amp_tok : Token_kind := 17
def bar_tok : Token_kind := 18
def caret_tok : Token_kind := 19
def tilde_tok : Token_kind := 20
def bang_tok : Token_kind := 21
def lt_tok : Token_kind := 22
def gt_tok : Token_kind := 23
def minus_gt_tok : Token_kind := 24
def eq_gt_tok : Token_kind := 25
def lt_lt_tok : Token_kind := 26
def gt_gt_tok : Token_kind := 27
def eq_eq_tok : Token_kind := 28
def bang_eq_tok : Token_kind := 29
def lt_eq_tok : Token_kind := 30
def gt_eq_tok : Token_kind := 31
def amp_amp_tok : Token_kind := 32
def bar_bar_tok : Token_kind := 33
def dot_dot_tok : Token_kind := 34

def identifier_tok : Token_kind := 50
def boolean_tok : Token_kind := 51
def binary_integer_tok : Token_kind := 52
def decimal_integer_tok : Token_kind := 53
def octal_integer_tok : Token_kind := 54
def hexadecimal_integer_tok : Token_kind := 55

/-- `is_integer(Token_kind)` (token.hpp lines 86-90):
`binary_integer_tok <= k && k <= hexadecimal_integer_tok`. -/
def is_integer (k : Token_kind) : Bool :=
  decide (binary_integer_tok ≤ k) && decide (k ≤ hexadecimal_integer_tok)

/-! ## Tokens (token.hpp lines 110-149) -/

/-- The `Token` class data: `loc_`, `kind_` and the symbol pointer
`sym_` (the interned symbol is modelled by its string payload; a null
or indeterminate pointer by `none`). -/
structure Token where
  loc_ : Location
  kind_ : Token_kind
  sym_ : Option String
deriving DecidableEq, Repr

/-- The default constructor `Token()` (token.hpp lines 114-116):
`loc_()` and `kind_(error_tok)`; `sym_` is left indeterminate. -/
def Token.default : Token :=
  { loc_ := "", kind_ := error_tok, sym_ := none }

/-- Observer `Token::kind()` (token.hpp line 130). -/
def Token.kind (t : Token) : Token_kind := t.kind_

/-- Observer `Token::location()` (token.hpp line 129). -/
def Token.location (t : Token) : Location := t.loc_

/-- `explicit operator bool()` (token.hpp line 139): true when this is
not an error token, i.e. `kind_ != error_tok`. -/
def Token.toBool (t : Token) : Bool :=
  decide (t.kind_ ≠ error_tok)

/-- `is_integer(Token const&)` (token.hpp lines 165-169):
`is_integer(k.kind())`. -/
def Token.is_integer_tok (t : Token) : Bool :=
  is_integer t.kind

/-! ## Token streams (token.hpp lines 189-219)

A stream is a pair of pointers `first_`, `last_` into an externally
owned contiguous token buffer; we model the buffer as a list and the
pointers as indices into it. -/

structure Token_stream where
  buf : List Token
  first_ : Nat
  last_ : Nat
deriving DecidableEq, Repr

/-- `Token_stream::eof()` (token.hpp line 203): `first_ == last_`. -/
def Token_stream.eof (s : Token_stream) : Bool :=
  decide (s.first_ = s.last_)

/-- Modelled from the spec: the body of `Token_stream::peek()` lives in
token.cpp, which is not among the sources; spec §4.3 says `peek()`
returns the current token without advancing.  The current token is the
one under the cursor `first_`. -/
def Token_stream.peek (s : Token_stream) : Token :=
  s.buf.getD s.first_ Token.default

/-- `Token_stream::location()` (token.hpp line 215):
`eof() ? Location{} : peek().location()`; a default-constructed
`Location{}` is the null/empty location. -/
def Token_stream.location (s : Token_stream) : Location :=
  if s.eof then "" else s.peek.location

/-! ## Token sets (token.hpp lines 236-249) -/

/-- A token set viewed through the owned range of kinds it resolves.
The resolver functions themselves play no role in installation. -/
structure Token_set where
  lo : Token_kind
  hi : Token_kind
deriving DecidableEq, Repr

/-- Two owned kind ranges overlap when some kind lies in both. -/
def rangesOverlap (a b : Token_set) : Bool :=
  decide (a.lo ≤ b.hi) && decide (b.lo ≤ a.hi)

/-- Modelled from the spec: the body of `install_token_set` lives in
token.cpp, which is not among the sources; spec §4.1 says multiple
simultaneous delegates are permitted only if their owned ranges are
disjoint, and an overlapping installation is a caller error, reported
(validated at install time) rather than silently tolerated. -/
def install_token_set (ts : Token_set) (installed : List Token_set) :
    Except String (List Token_set) :=
  if installed.any (fun t => rangesOverlap ts t) then
    Except.error "install_token_set: overlapping owned kind ranges"
  else
    Except.ok (installed ++ [ts])

/-! ## Helper lemmas -/

/-- `emit` increments the error counter exactly when the diagnostic is
an error, in both suppression modes. -/
theorem emit_fst_errs (c : Diagnostic_context) (d : Diagnostic) :
    (c.emit d).1.errs_ = if d.kind = .error_diag then c.errs_ + 1 else c.errs_ := by
  unfold Diagnostic_context.emit
  cases hc : c.suppress_ <;> simp [hc]

/-- `emit` never changes the suppression flag. -/
theorem emit_fst_suppress (c : Diagnostic_context) (d : Diagnostic) :
    (c.emit d).1.suppress_ = c.suppress_ := by
  unfold Diagnostic_context.emit
  cases hc : c.suppress_ <;> simp [hc]

/-- `countErrors` unfolded one step. -/
theorem countErrors_cons (d : Diagnostic) (ds : List Diagnostic) :
    countErrors (d :: ds) = (if d.kind = .error_diag then 1 else 0) + countErrors ds := by
  unfold countErrors
  by_cases hd : d.kind = .error_diag <;> simp [List.filter_cons, hd]
  omega

/-- Emitting a sequence adds exactly the number of error-kind
diagnostics in it to the counter. -/
theorem emitAll_fst_errs (ds : List Diagnostic) (c : Diagnostic_context) :
    (emitAll c ds).1.errs_ = c.errs_ + countErrors ds := by
  induction ds generalizing c with
  | nil => simp [emitAll, countErrors]
  | cons d ds ih =>
    simp only [emitAll]
    rw [ih, emit_fst_errs, countErrors_cons]
    by_cases hd : d.kind = .error_diag <;> simp [hd]
    omega

/-- `runOps` splits over list append. -/
theorem runOps_append (a b : List Ctx_op) (s : List Nat) :
    runOps s (a ++ b) = (runOps s a).bind (fun t => runOps t b) := by
  induction a generalizing s with
  | nil => simp [runOps]
  | cons op rest ih =>
    cases op with
    | push i => simp [runOps, ih]
    | pop =>
      cases s with
      | nil => simp [runOps]
      | cons x s1 => simp [runOps, ih]

/-- A well-nested sequence of constructions and destructions restores
the stack exactly. -/
theorem nested_runOps {ops : List Ctx_op} (h : Nested ops) :
    ∀ s : List Nat, runOps s ops = some s := by
  induction h with
  | nil => intro s; rfl
  | seq _ _ iha ihb =>
    intro s
    rw [runOps_append, iha s]
    exact ihb s
  | scope i _ ih =>
    rename_i a ha
    intro s
    have h1 : runOps s (Ctx_op.push i :: a ++ [Ctx_op.pop]) =
        runOps (i :: s) (a ++ [Ctx_op.pop]) := rfl
    rw [h1, runOps_append, ih (i :: s)]
    rfl

/-! ## Claim theorems -/

/-- C1: for every sequence of diagnostics emitted into a context
(directly via `emit` or via the facade `error`/`warning`), whether or
not the context is suppressed, the counter read by `error_count()`
equals exactly the number of error-kind diagnostics emitted since the
context was constructed (or last reset); warning-kind and note-kind
diagnostics never change the counter, while the facade `error` adds
exactly one. -/
theorem C1_error_count_invariant :
    ∀ (b : Bool) (ds : List Diagnostic) (c : Diagnostic_context)
      (loc : Location) (msg : String),
      (emitAll (Diagnostic_context.mkNew b) ds).1.errors = countErrors ds
      ∧ (emitAll c.reset ds).1.errors = countErrors ds
      ∧ (c.emit { kind := .warning_diag, loc := loc, msg := msg }).1.errors = c.errors
      ∧ (c.emit { kind := .note_diag, loc := loc, msg := msg }).1.errors = c.errors
      ∧ (error loc msg c).1.errors = c.errors + 1
      ∧ (warning loc msg c).1.errors = c.errors := by
  intro b ds c loc msg
  refine ⟨?_, ?_, ?_, ?_, ?_, ?_⟩
  · show (emitAll (Diagnostic_context.mkNew b) ds).1.errs_ = countErrors ds
    rw [emitAll_fst_errs]
    simp [Diagnostic_context.mkNew]
  · show (emitAll c.reset ds).1.errs_ = countErrors ds
    rw [emitAll_fst_errs]
    simp [Diagnostic_context.reset]
  · show (Diagnostic_context.emit c _).1.errs_ = c.errs_
    rw [emit_fst_errs]
    simp
  · show (Diagnostic_context.emit c _).1.errs_ = c.errs_
    rw [emit_fst_errs]
    simp
  · show (Diagnostic_context.emit c _).1.errs_ = c.errs_ + 1
    rw [emit_fst_errs]
    simp
  · show (Diagnostic_context.emit c _).1.errs_ = c.errs_
    rw [emit_fst_errs]
    simp

/-- C2: `emit(diagnostic)` on a suppressed context appends the
diagnostic to the stored sequence and writes nothing to the reporting
boundary; on a non-suppressed context it immediately writes the
diagnostic formatted as `kind:location: message` and does not retain
it. -/
theorem C2_emit_dispatch :
    ∀ (c : Diagnostic_context) (d : Diagnostic),
      (c.suppress_ = true →
        (c.emit d).1.saved_ = c.saved_ ++ [d] ∧ (c.emit d).2 = [])
      ∧ (c.suppress_ = false →
        (c.emit d).2 = [formatDiag d] ∧ (c.emit d).1.saved_ = c.saved_)
      ∧ formatDiag d = d.kind.str ++ ":" ++ d.loc ++ ": " ++ d.msg := by
  intro c d
  refine ⟨?_, ?_, rfl⟩
  · intro hs
    constructor <;> simp [Diagnostic_context.emit, hs]
  · intro hs
    constructor <;> simp [Diagnostic_context.emit, hs]

/-- C2 witness: emitting a concrete diagnostic into a concrete
suppressed context stores it and writes nothing; into a non-suppressed
context it writes the formatted line and stores nothing. -/
theorem C2_emit_dispatch_witness :
    ((Diagnostic_context.mk true 0 []).emit
        (Diagnostic.mk .error_diag "f.c:1" "bad")).1.saved_ =
      [Diagnostic.mk .error_diag "f.c:1" "bad"]
    ∧ ((Diagnostic_context.mk false 0 []).emit
        (Diagnostic.mk .error_diag "f.c:1" "bad")).2 =
      ["error:f.c:1: bad"] := by
  constructor
  · exact ((C2_emit_dispatch (Diagnostic_context.mk true 0 [])
      (Diagnostic.mk .error_diag "f.c:1" "bad")).1 rfl).1
  · exact ((C2_emit_dispatch (Diagnostic_context.mk false 0 [])
      (Diagnostic.mk .error_diag "f.c:1" "bad")).2.1 rfl).1

/-- C3: the replay form `emit()` leaves the context (its error counter
included) unchanged; on a suppressed context it writes every stored
diagnostic in original insertion order, and on a non-suppressed context
it writes nothing. -/
theorem C3_replay :
    ∀ (c : Diagnostic_context),
      c.emitStored.1 = c
      ∧ (c.suppress_ = true → c.emitStored.2 = c.saved_.map formatDiag)
      ∧ (c.suppress_ = false → c.emitStored.2 = []) := by
  intro c
  refine ⟨rfl, ?_, ?_⟩
  · intro hs
    simp [Diagnostic_context.emitStored, hs]
  · intro hs
    simp [Diagnostic_context.emitStored, hs]

/-- C3 witness: replaying a concrete suppressed context with two stored
diagnostics writes them in insertion order and changes nothing. -/
theorem C3_replay_witness :
    (Diagnostic_context.mk true 1
        [Diagnostic.mk .error_diag "f.c:1" "bad",
         Diagnostic.mk .warning_diag "f.c:2" "odd"]).emitStored.2 =
      ["error:f.c:1: bad", "warning:f.c:2: odd"]
    ∧ (Diagnostic_context.mk true 1
        [Diagnostic.mk .error_diag "f.c:1" "bad",
         Diagnostic.mk .warning_diag "f.c:2" "odd"]).emitStored.1 =
      Diagnostic_context.mk true 1
        [Diagnostic.mk .error_diag "f.c:1" "bad",
         Diagnostic.mk .warning_diag "f.c:2" "odd"] := by
  constructor
  · exact (C3_replay (Diagnostic_context.mk true 1
      [Diagnostic.mk .error_diag "f.c:1" "bad",
       Diagnostic.mk .warning_diag "f.c:2" "odd"])).2.1 rfl
  · exact (C3_replay (Diagnostic_context.mk true 1
      [Diagnostic.mk .error_diag "f.c:1" "bad",
       Diagnostic.mk .warning_diag "f.c:2" "odd"])).1

/-- C4: after `reset()` the error count is 0, a subsequent replay
writes nothing, the stored sequence is empty, and the suppression mode
is unchanged. -/
theorem C4_reset :
    ∀ (c : Diagnostic_context),
      c.reset.errors = 0
      ∧ c.reset.emitStored.2 = []
      ∧ c.reset.saved_ = []
      ∧ c.reset.suppress_ = c.suppress_ := by
  intro c
  refine ⟨rfl, ?_, rfl, rfl⟩
  cases hs : c.suppress_ <;>
    simp [Diagnostic_context.reset, Diagnostic_context.emitStored, hs]

/-- C5: context construction pushes onto the process-wide stack and
destruction pops the context pushed by the matching construction:
constructing A then B and destroying B then A restores the stack, after
constructing `i` and running any well-nested body the stack top is
exactly `i` (so the following destruction pops the matching context),
and every interconstruction following nested-scope discipline restores
the stack exactly. -/
theorem C5_lifo_stack :
    ∀ (s : List Nat) (a b : Nat),
      runOps s [Ctx_op.push a, Ctx_op.push b, Ctx_op.pop, Ctx_op.pop] = some s
      ∧ (∀ (i : Nat) (ops : List Ctx_op), Nested ops →
          runOps s (Ctx_op.push i :: ops) = some (i :: s)
          ∧ runOps s (Ctx_op.push i :: ops ++ [Ctx_op.pop]) = some s)
      ∧ (∀ ops : List Ctx_op, Nested ops → runOps s ops = some s) := by
  intro s a b
  refine ⟨rfl, ?_, fun ops h => nested_runOps h s⟩
  intro i ops h
  constructor
  · show runOps (i :: s) ops = some (i :: s)
    exact nested_runOps h (i :: s)
  · exact nested_runOps (Nested.scope i h) s

/-- C5 witness: pushing contexts 1 then 2 and popping twice restores a
concrete stack, via the well-nested word `push 1, push 2, pop, pop`. -/
theorem C5_lifo_stack_witness :
    runOps [7] [Ctx_op.push 1, Ctx_op.push 2, Ctx_op.pop, Ctx_op.pop] = some [7] := by
  have hn : Nested [Ctx_op.push 2, Ctx_op.pop] := Nested.scope 2 Nested.nil
  exact ((C5_lifo_stack [7] 1 2).2.1 1 [Ctx_op.push 2, Ctx_op.pop] hn).2

/-- C6: a default-constructed Token has kind `error_tok` and converts
to false; a Token is truthy exactly when its kind is not `error_tok`,
so every Token built with a non-error kind is truthy. -/
theorem C6_token_truthiness :
    Token.default.kind = error_tok
    ∧ Token.default.toBool = false
    ∧ (∀ t : Token, t.toBool = true ↔ t.kind ≠ error_tok)
    ∧ (∀ (loc : Location) (k : Token_kind) (sym : Option String),
        k ≠ error_tok → (Token.mk loc k sym).toBool = true) := by
  refine ⟨rfl, rfl, ?_, ?_⟩
  · intro t
    simp [Token.toBool, Token.kind]
  · intro loc k sym hk
    simp [Token.toBool]
    exact hk

/-- C6 witness: a concrete Token with a non-error kind is truthy. -/
theorem C6_token_truthiness_witness :
    (Token.mk "f.c:1" lparen_tok none).toBool = true :=
  C6_token_truthiness.2.2.2 "f.c:1" lparen_tok none (by decide)

/-- C7: a token stream is at end-of-stream exactly when the cursor has
reached the end (`first_ = last_`); `location()` is the current
(peeked) token's location when not at end-of-stream and the null/empty
default location at end-of-stream. -/
theorem C7_stream_eof_location :
    ∀ s : Token_stream,
      (s.eof = true ↔ s.first_ = s.last_)
      ∧ (s.eof = false → s.location = s.peek.location)
      ∧ (s.eof = true → s.location = "") := by
  intro s
  refine ⟨by simp [Token_stream.eof], ?_, ?_⟩
  · intro h
    simp [Token_stream.location, h]
  · intro h
    simp [Token_stream.location, h]

/-- C7 witness: a concrete one-token stream is not at end-of-stream and
reports the token's location; a concrete empty stream is at
end-of-stream and reports the empty location. -/
theorem C7_stream_eof_location_witness :
    (Token_stream.mk [Token.mk "f.c:3" lparen_tok none] 0 1).location = "f.c:3"
    ∧ (Token_stream.mk [] 0 0).location = "" := by
  constructor
  · exact ((C7_stream_eof_location
      (Token_stream.mk [Token.mk "f.c:3" lparen_tok none] 0 1)).2.1 (by decide)).trans rfl
  · exact (C7_stream_eof_location (Token_stream.mk [] 0 0)).2.2 (by decide)

/-- C8: `init_diagnostics()` is lazy and idempotent: the first call
pushes exactly one root context onto the stack and marks the root
initialized; any later call leaves the whole state unchanged. -/
theorem C8_init_diagnostics_idempotent :
    ∀ g : DiagGlobal,
      init_diagnostics (init_diagnostics g) = init_diagnostics g
      ∧ (g.rootInit = false →
          (init_diagnostics g).stack = rootId :: g.stack
          ∧ (init_diagnostics g).rootInit = true)
      ∧ (g.rootInit = true → init_diagnostics g = g) := by
  intro g
  refine ⟨?_, ?_, ?_⟩
  · cases hg : g.rootInit <;> simp [init_diagnostics, hg]
  · intro h
    simp [init_diagnostics, h]
  · intro h
    simp [init_diagnostics, h]

/-- C8 witness: from a concrete uninitialized state, the first call
pushes the root context and a second call changes nothing. -/
theorem C8_init_diagnostics_idempotent_witness :
    (init_diagnostics (DiagGlobal.mk [] false)).stack = [rootId]
    ∧ init_diagnostics (init_diagnostics (DiagGlobal.mk [] false)) =
        init_diagnostics (DiagGlobal.mk [] false) := by
  constructor
  · exact ((C8_init_diagnostics_idempotent (DiagGlobal.mk [] false)).2.1 rfl).1
  · exact (C8_init_diagnostics_idempotent (DiagGlobal.mk [] false)).1

/-- C9: installing a Token_set whose owned kind range overlaps an
already installed one is deterministically rejected with an error
before any lookup can happen, and an installation is accepted only
when no installed range overlaps — overlap is never silently
accepted. -/
theorem C9_overlapping_install_rejected :
    ∀ (ts : Token_set) (installed : List Token_set),
      (installed.any (fun t => rangesOverlap ts t) = true →
        install_token_set ts installed =
          Except.error "install_token_set: overlapping owned kind ranges")
      ∧ (∀ result : List Token_set,
          install_token_set ts installed = Except.ok result →
          installed.any (fun t => rangesOverlap ts t) = false) := by
  intro ts installed
  constructor
  · intro h
    simp [install_token_set, h]
  · intro result h
    by_cases hov : installed.any (fun t => rangesOverlap ts t) = true
    · simp [install_token_set, hov] at h
    · simpa using hov

/-- C9 witness: installing a concrete Token_set owning kinds 150..250
over an installed one owning 100..200 is rejected with an error. -/
theorem C9_overlapping_install_rejected_witness :
    install_token_set (Token_set.mk 150 250) [Token_set.mk 100 200] =
      Except.error "install_token_set: overlapping owned kind ranges" :=
  (C9_overlapping_install_rejected (Token_set.mk 150 250)
    [Token_set.mk 100 200]).1 (by decide)

/-- C10: `is_integer` on a kind holds exactly for
`binary_integer_tok ≤ k ≤ hexadecimal_integer_tok`, i.e. for the four
built-in integer kinds 52, 53, 54, 55; on a Token it is exactly
`is_integer` of the token's kind; and it is false for the error,
punctuation, identifier and boolean kinds. -/
theorem C10_is_integer_range :
    ∀ (k : Token_kind) (t : Token),
      (is_integer k = true ↔ binary_integer_tok ≤ k ∧ k ≤ hexadecimal_integer_tok)
      ∧ (is_integer k = true ↔ k = 52 ∨ k = 53 ∨ k = 54 ∨ k = 55)
      ∧ Token.is_integer_tok t = is_integer t.kind
      ∧ is_integer error_tok = false
      ∧ is_integer identifier_tok = false
      ∧ is_integer boolean_tok = false
      ∧ (lparen_tok ≤ k → k ≤ dot_dot_tok → is_integer k = false) := by
  intro k t
  obtain ⟨m, hm⟩ : ∃ m : Int, m = k := ⟨k, rfl⟩
  refine ⟨?_, ?_, rfl, by decide, by decide, by decide, ?_⟩
  · simp [is_integer]
  · rw [← hm]
    simp only [is_integer, binary_integer_tok, hexadecimal_integer_tok,
      Bool.and_eq_true, decide_eq_true_eq]
    show (52:Int) ≤ m ∧ m ≤ (55:Int) ↔
      m = (52:Int) ∨ m = (53:Int) ∨ m = (54:Int) ∨ m = (55:Int)
    omega
  · rw [← hm]
    intro h1 h2
    simp only [lparen_tok] at h1
    simp only [dot_dot_tok] at h2
    simp only [is_integer, binary_integer_tok, hexadecimal_integer_tok]
    have h1i : (1:Int) ≤ m := h1
    have h2i : m ≤ (34:Int) := h2
    have : ¬ ((52:Int) ≤ m) := by omega
    simp [this]

/-- C10 witness: the punctuation kind `dot_tok` (7) is not an integer
kind, by the punctuation-range part of the theorem at 7. -/
theorem C10_is_integer_range_witness :
    is_integer dot_tok = false :=
  (C10_is_integer_range dot_tok Token.default).2.2.2.2.2.2 (by decide) (by decide)

end Lingo
